import Mathlib

/-!
Verification of the batch scan-and-cache pipeline of `grlib/chan.py`
(`App/pages/stock_scanner.py` and `App/stock_scanner.py`), as a shallow
embedding in Lean 4.

Modelling conventions:
* Python `datetime` values are integers counting minutes since an epoch that
  falls on a midnight; one calendar day is 1440 minutes.  `datetime(t.year,
  t.month, t.day)` is truncation to the start of the day, `timedelta(days=d)`
  is `d * 1440` minutes, and `(a - b).days` is floor division of the minute
  difference by 1440 (Python's `timedelta.days` floors).
* The analysis engine (`CChan`, an external library from the pipeline's point
  of view) is an oracle `String → Except String AnalysisData`: constructing
  `CChan(...)` either raises (the outer `.error`) or yields the bar series of
  level 0 together with the outcome of the later
  `chan.get_latest_bsp(number=0)` read — itself failable, because in the
  source that read happens only after `success_count` has been incremented,
  so a raise there is caught by the same `except` and also increments
  `fail_count`.
* `pandas` DataFrames are lists of records, and the on-disk cache directories
  are association lists from keys (the file paths the code builds) to the
  decoded file contents.
-/

namespace ChanScanner

/-! ## Time model -/

/-- Minutes in one calendar day. -/
def minutesPerDay : Int := 1440

/-- Python `datetime(t.year, t.month, t.day)`: truncation of a datetime to the
start (midnight) of its calendar day. -/
def truncDay (t : Int) : Int := t - t % minutesPerDay

/-- Python `timedelta(days=d)` measured in minutes. -/
def timedeltaDays (d : Int) : Int := d * minutesPerDay

/-- Python `(a - b).days`: the difference floored to whole days. -/
def deltaDays (a b : Int) : Int := Int.fdiv (a - b) minutesPerDay

/-! ## String helpers mirroring the Python `str` methods used by the code -/

/-- `str.startswith(pre)`. -/
def pyStartsWith (s pre : String) : Bool := pre.toList.isPrefixOf s.toList

/-- Replace every occurrence of the non-empty pattern `o :: os` in a character
list (leftmost, non-overlapping), as Python `str.replace` does.  The `Nat`
argument is fuel, structurally consumed so the kernel can evaluate it; every
step consumes at least one character, so the list's length is enough fuel. -/
def replaceSubAux (o : Char) (os new_ : List Char) : Nat → List Char → List Char
  | 0, l => l
  | _ + 1, [] => []
  | fuel + 1, c :: rest =>
    if (o :: os).isPrefixOf (c :: rest) then
      new_ ++ replaceSubAux o os new_ fuel (rest.drop os.length)
    else
      c :: replaceSubAux o os new_ fuel rest

/-- Replace every occurrence of the non-empty pattern `o :: os`. -/
def replaceSub (o : Char) (os new_ : List Char) (l : List Char) : List Char :=
  replaceSubAux o os new_ l.length l

/-- Python `s.replace(old, new)` (for the non-empty patterns the code uses). -/
def pyReplace (s old new_ : String) : String :=
  match old.toList with
  | [] => s
  | o :: os => String.mk (replaceSub o os new_.toList s.toList)

/-- Case-sensitive substring test. -/
def containsSub (s pat : String) : Bool :=
  s.toList.tails.any (fun t => pat.toList.isPrefixOf t)

/-- Pandas `str.contains(pat, case=False)`: case-insensitive substring test. -/
def containsCI (s pat : String) : Bool :=
  containsSub (String.mk (s.toList.map Char.toUpper))
    (String.mk (pat.toList.map Char.toUpper))

/-! ## Universe Filter (`get_tradable_stocks`)

A raw provider row, as returned by baostock's listing query: the
exchange-prefixed code (`sh.600000`, `sz.000001`, `bj.830001`, …), the display
name (`code_name`), and the trade-status flag (`'1'` = actively trading). -/

structure RawRow where
  code : String
  code_name : String
  tradeStatus : String
deriving Repr, DecidableEq

/-- A raw listing: the rows plus whether the provider schema carried a
`tradeStatus` column at all (the code guards the status filter with
`if 'tradeStatus' in df.columns`). -/
structure RawListing where
  rows : List RawRow
  hasTradeStatus : Bool
deriving Repr, DecidableEq

/-- Strip the exchange prefix the way the code does:
`df['code'].str.replace('sh.', '').str.replace('sz.', '')`. -/
def stripExchTag (c : String) : String :=
  pyReplace (pyReplace c "sh." "") "sz." ""

/-- `get_tradable_stocks` of `App/pages/stock_scanner.py` (lines 289-327),
from the point where the provider rows are in hand.  The chain of pandas
filters, in source order:
1. keep only `sh.`/`sz.`-prefixed codes (drops `bj.` Beijing codes);
2. strip the prefix, set `name := code_name`;
3. drop names containing `ST` (case-insensitive);
4. drop codes starting with `8`, then `43` (Beijing Stock Exchange);
5. drop codes starting with `200`, then `900` (B shares);
6. drop codes starting with `920` (CDR);
7. if the schema has `tradeStatus`, keep only rows with status `'1'`.
Note: unlike its own docstring (rule 2, "Exclude STAR Market (688 prefix)")
and unlike the sibling `App/stock_scanner.py`, this version has NO filter for
`688`-prefixed codes.  The early `if df.empty: return pd.DataFrame()` exits
return what the filter chain would anyway (filters of an empty frame are
empty), so they need no separate modelling. -/
def get_tradable_stocks (listing : RawListing) : List (String × String) :=
  let df := listing.rows.filter
    (fun r => pyStartsWith r.code "sh." || pyStartsWith r.code "sz.")
  let df := df.map (fun r => { r with code := stripExchTag r.code })
  let df := df.filter (fun r => !containsCI r.code_name "ST")
  let df := df.filter (fun r => !pyStartsWith r.code "8")
  let df := df.filter (fun r => !pyStartsWith r.code "43")
  let df := df.filter (fun r => !pyStartsWith r.code "200")
  let df := df.filter (fun r => !pyStartsWith r.code "900")
  let df := df.filter (fun r => !pyStartsWith r.code "920")
  let df := if listing.hasTradeStatus
    then df.filter (fun r => r.tradeStatus = "1") else df
  df.map (fun r => (r.code, r.code_name))

/-- `get_tradable_stocks` of `App/stock_scanner.py` (lines 100-124): the same
filter chain, but with the STAR-Market exclusion
`df = df[~df['code'].str.startswith('688')]` present between the ST filter
and the Beijing filter, exactly as in the source. -/
def get_tradable_stocks_app (listing : RawListing) : List (String × String) :=
  let df := listing.rows.filter
    (fun r => pyStartsWith r.code "sh." || pyStartsWith r.code "sz.")
  let df := df.map (fun r => { r with code := stripExchTag r.code })
  let df := df.filter (fun r => !containsCI r.code_name "ST")
  let df := df.filter (fun r => !pyStartsWith r.code "688")
  let df := df.filter (fun r => !pyStartsWith r.code "8")
  let df := df.filter (fun r => !pyStartsWith r.code "43")
  let df := df.filter (fun r => !pyStartsWith r.code "200")
  let df := df.filter (fun r => !pyStartsWith r.code "900")
  let df := df.filter (fun r => !pyStartsWith r.code "920")
  let df := if listing.hasTradeStatus
    then df.filter (fun r => r.tradeStatus = "1") else df
  df.map (fun r => (r.code, r.code_name))

/-- The end-to-end scenario listing from the specification: raw provider rows
for `("600000","A")`, `("000001","B")`, `("688001","C")`, all actively
trading. -/
def scenarioListing : RawListing :=
  { rows := [⟨"sh.600000", "A", "1"⟩, ⟨"sz.000001", "B", "1"⟩,
             ⟨"sh.688001", "C", "1"⟩],
    hasTradeStatus := true }

/-- C3: evaluation at the spec's own scenario listing.  The page module's
`get_tradable_stocks` (App/pages/stock_scanner.py) KEEPS the STAR-Market code
`688001` — contradicting the claim, the function's own docstring rule 2
("Exclude STAR Market (688 prefix)"), and the sibling implementation in
`App/stock_scanner.py`, which filters it out and returns exactly the
`[("600000","A"), ("000001","B")]` the claim states. -/
theorem star_market_exclusion_divergence :
    get_tradable_stocks scenarioListing
      = [("600000", "A"), ("000001", "B"), ("688001", "C")] ∧
    get_tradable_stocks_app scenarioListing
      = [("600000", "A"), ("000001", "B")] := by decide

/-- Every pair the page module's filter outputs does satisfy the remaining
exclusion predicates: no risk-marked (`ST`) name, no Beijing (`8`/`43`), no
B-share (`200`/`900`), no CDR (`920`) code — only the `688` exclusion is
missing from that version. -/
theorem chain_exclusions (rows : List RawRow) (r : RawRow)
    (hr : r ∈ ((((((rows.filter
        (fun r => !containsCI r.code_name "ST")).filter
        (fun r => !pyStartsWith r.code "8")).filter
        (fun r => !pyStartsWith r.code "43")).filter
        (fun r => !pyStartsWith r.code "200")).filter
        (fun r => !pyStartsWith r.code "900")).filter
        (fun r => !pyStartsWith r.code "920"))) :
    containsCI r.code_name "ST" = false ∧
    pyStartsWith r.code "8" = false ∧
    pyStartsWith r.code "43" = false ∧
    pyStartsWith r.code "200" = false ∧
    pyStartsWith r.code "900" = false ∧
    pyStartsWith r.code "920" = false := by
  obtain ⟨hr, h920⟩ := List.mem_filter.mp hr
  obtain ⟨hr, h900⟩ := List.mem_filter.mp hr
  obtain ⟨hr, h200⟩ := List.mem_filter.mp hr
  obtain ⟨hr, h43⟩ := List.mem_filter.mp hr
  obtain ⟨hr, h8⟩ := List.mem_filter.mp hr
  obtain ⟨hr2, hST⟩ := List.mem_filter.mp hr
  exact ⟨by simpa using hST, by simpa using h8, by simpa using h43,
    by simpa using h200, by simpa using h900, by simpa using h920⟩

theorem pages_filter_exclusions (listing : RawListing) (c n : String)
    (hmem : (c, n) ∈ get_tradable_stocks listing) :
    containsCI n "ST" = false ∧ pyStartsWith c "8" = false ∧
    pyStartsWith c "43" = false ∧ pyStartsWith c "200" = false ∧
    pyStartsWith c "900" = false ∧ pyStartsWith c "920" = false := by
  simp only [get_tradable_stocks] at hmem
  split at hmem
  · obtain ⟨r, hr, hrc⟩ := List.mem_map.mp hmem
    obtain ⟨h1, h2, h3, h4, h5, h6⟩ :=
      chain_exclusions _ r (List.mem_filter.mp hr).1
    cases hrc
    exact ⟨h1, h2, h3, h4, h5, h6⟩
  · obtain ⟨r, hr, hrc⟩ := List.mem_map.mp hmem
    obtain ⟨h1, h2, h3, h4, h5, h6⟩ := chain_exclusions _ r hr
    cases hrc
    exact ⟨h1, h2, h3, h4, h5, h6⟩

/-! ## Analysis engine interface (`CChan`, `get_latest_bsp`) -/

/-- The K-line granularities (`Common.CEnum.KL_TYPE`). -/
inductive KlType
  | k1m | k3m | k5m | k15m | k30m | k60m
  | kDay | kWeek | kMon | kQuarter | kYear
deriving Repr, DecidableEq

/-- `CPyEchartsPlotDriver.LEVEL_NAMES` (Plot/PyEchartsPlotDriver.py, lines
34-46). -/
def LEVEL_NAMES : List (KlType × String) :=
  [(.k1m, "1F"), (.k3m, "3F"), (.k5m, "5F"), (.k15m, "15F"), (.k30m, "30F"),
   (.k60m, "60F"), (.kDay, "日线"), (.kWeek, "周线"), (.kMon, "月线"),
   (.kQuarter, "季线"), (.kYear, "年线")]

/-- `LEVEL_NAMES.get(kt, "DAY")` as used by the scanner pages. -/
def levelNameOf (kt : KlType) : String :=
  ((LEVEL_NAMES.find? (fun p => p.1 == kt)).map (fun p => p.2)).getD "DAY"

/-- One buy/sell point as the scanner sees it: `bsp.is_buy`, `bsp.type2str()`,
`bsp.klu.time` (a datetime, in minutes), and `bsp.klu.close` when the K-line
unit has a `close` attribute (`None` otherwise). -/
structure Bsp where
  is_buy : Bool
  bsp_type : String
  time : Int
  close : Option Int := none
deriving Repr, DecidableEq

/-- Equality of failable results is decidable componentwise. -/
instance {e a : Type} [DecidableEq e] [DecidableEq a] :
    DecidableEq (Except e a) := fun x y =>
  match x, y with
  | .error u, .error v =>
    if h : u = v then isTrue (h ▸ rfl)
    else isFalse (fun hc => h (by cases hc; rfl))
  | .error _, .ok _ => isFalse (fun hc => Except.noConfusion hc)
  | .ok _, .error _ => isFalse (fun hc => Except.noConfusion hc)
  | .ok u, .ok v =>
    if h : u = v then isTrue (h ▸ rfl)
    else isFalse (fun hc => h (by cases hc; rfl))

/-- What the scan loop reads off a successfully constructed `CChan`: the
K-line unit times of level 0 (`chan[0]`, flattened, in order — so
`chan[0][-1][-1].time` is the last element) and the ranked buy/sell point
list `chan.get_latest_bsp(number=0)` in the engine's output order.  The
signal list is a separate failable read: in the loop body it is executed at
pages line 482, after `success_count += 1` at line 479, still inside the
`try` whose `except` (line 498) increments `fail_count` — so its raise is a
distinct later failure, not part of the construction. -/
structure AnalysisData where
  barTimes : List Int
  get_latest_bsp : Except String (List Bsp)
deriving Repr, DecidableEq

/-- The in-memory `CChan` handle a scan result row keeps (`r['chan']`): its
full code and its `lv_list`. -/
structure ChanHandle where
  code : String
  lv_list : List KlType
deriving Repr, DecidableEq

/-- The engine oracle: constructing `CChan(code=full_code, ...)` and reading
its bar data either raises an exception (the outer `.error`) or yields the
data, whose `get_latest_bsp` component may in turn raise.  The pipeline
treats the engine as an opaque, possibly-throwing black box. -/
abbrev Engine := String → Except String AnalysisData

/-- Exchange-prefix normalization used by both `analyze_stock` and the scan
loop: `600/601/603/605/688` prefixes are Shanghai (`sh.`), everything else
Shenzhen (`sz.`); codes already carrying a prefix are kept. -/
def toFullCode (code : String) : String :=
  if pyStartsWith code "sh." || pyStartsWith code "sz." then code
  else if pyStartsWith code "600" || pyStartsWith code "601" ||
      pyStartsWith code "603" || pyStartsWith code "605" ||
      pyStartsWith code "688" then
    "sh." ++ code
  else
    "sz." ++ code

/-! ## Scan Orchestrator (`scan_stocks`, App/pages/stock_scanner.py 411-505) -/

/-- The recency filter of the scan loop (lines 483-486): a buy/sell point is
retained when `bsp.is_buy` and
`datetime(bsp.klu.time.year, bsp.klu.time.month, bsp.klu.time.day)
 >= cutoff_date`, where `cutoff_date = datetime.now() - timedelta(days=recent_days)`. -/
def isRecentBuy (cutoff : Int) (b : Bsp) : Bool :=
  b.is_buy && decide (cutoff ≤ truncDay b.time)

/-- `buy_points[0]` of the filtered comprehension (line 490): the first
surviving buy point in the engine's output order, if any. -/
def select_latest_buy (cutoff : Int) (bsp_list : List Bsp) : Option Bsp :=
  (bsp_list.filter (isRecentBuy cutoff)).head?

/-- How one loop iteration classifies a symbol.  `succeededThenRaised` is
the path where `success_count += 1` (pages line 479) has already run and the
subsequent `chan.get_latest_bsp(number=0)` read (line 482) raises: the
`except` clause (line 498) then runs `fail_count += 1` as well, so that
symbol increments BOTH counters. -/
inductive Outcome
  | failed
  | succeededNoHit
  | succeededHit (b : Bsp)
  | succeededThenRaised
deriving Repr, DecidableEq

/-- The body of the scan loop for one symbol (lines 445-500), factored as a
classification, in the source's execution order:
* `CChan(...)` raising (`except Exception`) → `failed` (`fail_count += 1`);
* `len(chan[0]) == 0` → `failed` (modelled as `getLast? = none`);
* `(datetime.now() - last_date).days > 15` with
  `last_date = datetime(last_time.year, last_time.month, last_time.day)` →
  `failed`;
* otherwise `success_count += 1` (line 479) is committed, and only then is
  `chan.get_latest_bsp(number=0)` read (line 482): if that read raises, the
  `except` at line 498 also runs `fail_count += 1` (`succeededThenRaised`);
* otherwise the symbol yields a hit exactly when the recency-filtered buy
  list is non-empty, reporting `buy_points[0]`. -/
def classify (now recent_days : Int) (engine : Engine) (code : String) :
    Outcome :=
  match engine (toFullCode code) with
  | .error _ => .failed
  | .ok data =>
    match data.barTimes.getLast? with
    | none => .failed
    | some last_time =>
      if deltaDays now (truncDay last_time) > 15 then .failed
      else
        match data.get_latest_bsp with
        | .error _ => .succeededThenRaised
        | .ok bsp_list =>
          match select_latest_buy (now - timedeltaDays recent_days)
              bsp_list with
          | some b => .succeededHit b
          | none => .succeededNoHit

/-- One row of the scan's `results` list (lines 491-497): the pure numeric
code, display name, `type2str()` of the reported buy point, `str(...)` of its
K-line unit time, and the `CChan` handle. -/
structure ScanResult where
  code : String
  name : String
  bsp_type : String
  bsp_time : String
  chan : Option ChanHandle
deriving Repr, DecidableEq

/-- The loop state: accumulated `results`, `success_count`, `fail_count`. -/
structure ScanState where
  results : List ScanResult
  success_count : Nat
  fail_count : Nat
deriving Repr, DecidableEq

/-- The initial loop state. -/
def ScanState.zero : ScanState := ⟨[], 0, 0⟩

/-- One iteration of the scan loop, updating the state for one
`(code, name)` row of the stock list. -/
def scanStep (now recent_days : Int) (kt : KlType) (engine : Engine)
    (st : ScanState) (sym : String × String) : ScanState :=
  match classify now recent_days engine sym.1 with
  | .failed => { st with fail_count := st.fail_count + 1 }
  | .succeededNoHit => { st with success_count := st.success_count + 1 }
  | .succeededHit b =>
    { st with
      success_count := st.success_count + 1,
      results := st.results ++
        [{ code := sym.1, name := sym.2, bsp_type := b.bsp_type,
           bsp_time := toString b.time,
           chan := some ⟨toFullCode sym.1, [kt]⟩ }] }
  | .succeededThenRaised =>
    { st with
      success_count := st.success_count + 1,
      fail_count := st.fail_count + 1 }

/-- `scan_stocks(stock_list, config, begin_time, end_time, recent_days,
kl_type)`: iterate the stock list in order and return
`(results, success_count, fail_count)`. -/
def scan_stocks (now recent_days : Int) (kt : KlType) (engine : Engine)
    (stock_list : List (String × String)) :
    List ScanResult × Nat × Nat :=
  let st := stock_list.foldl (scanStep now recent_days kt engine)
    ScanState.zero
  (st.results, st.success_count, st.fail_count)

/-- Specification-side predicate for the `signal_hits` invariant: the
symbol's outcome succeeds (engine returns, non-empty bars, fresh, the signal
list readable) and at least one entry-direction signal event survives the
recency filter. -/
def outcomeHasQualifyingHit (now recent_days : Int) (engine : Engine)
    (sym : String × String) : Bool :=
  match engine (toFullCode sym.1) with
  | .error _ => false
  | .ok data =>
    match data.barTimes.getLast? with
    | none => false
    | some last_time =>
      if deltaDays now (truncDay last_time) > 15 then false
      else
        match data.get_latest_bsp with
        | .error _ => false
        | .ok bsp_list =>
          !(bsp_list.filter
            (isRecentBuy (now - timedeltaDays recent_days))).isEmpty

/-- Specification-side predicate for the double-count path: the symbol
passes the construction, emptiness and staleness checks — so
`success_count += 1` has run — and then the signal-list read raises, so
`fail_count += 1` runs as well. -/
def signalReadRaises (now recent_days : Int) (engine : Engine)
    (sym : String × String) : Bool :=
  match engine (toFullCode sym.1) with
  | .error _ => false
  | .ok data =>
    match data.barTimes.getLast? with
    | none => false
    | some last_time =>
      if deltaDays now (truncDay last_time) > 15 then false
      else
        match data.get_latest_bsp with
        | .error _ => true
        | .ok _ => false

/-! ## Loop-state lemmas -/

/-- One scan step only appends to `results` and adds to the counters, by
deltas that do not depend on the incoming state. -/
theorem scanStep_split (now recent_days : Int) (kt : KlType) (engine : Engine)
    (st : ScanState) (sym : String × String) :
    (scanStep now recent_days kt engine st sym).results
      = st.results ++ (scanStep now recent_days kt engine .zero sym).results ∧
    (scanStep now recent_days kt engine st sym).success_count
      = st.success_count
        + (scanStep now recent_days kt engine .zero sym).success_count ∧
    (scanStep now recent_days kt engine st sym).fail_count
      = st.fail_count
        + (scanStep now recent_days kt engine .zero sym).fail_count := by
  cases h : classify now recent_days engine sym.1 <;>
    simp [scanStep, h, ScanState.zero]

/-- Running the scan loop from an arbitrary state appends what the loop
produces from the zero state. -/
theorem scanFold_split (now recent_days : Int) (kt : KlType) (engine : Engine)
    (l : List (String × String)) (st : ScanState) :
    (l.foldl (scanStep now recent_days kt engine) st).results
      = st.results
        ++ (l.foldl (scanStep now recent_days kt engine) .zero).results ∧
    (l.foldl (scanStep now recent_days kt engine) st).success_count
      = st.success_count
        + (l.foldl (scanStep now recent_days kt engine) .zero).success_count ∧
    (l.foldl (scanStep now recent_days kt engine) st).fail_count
      = st.fail_count
        + (l.foldl (scanStep now recent_days kt engine) .zero).fail_count := by
  induction l generalizing st with
  | nil => simp [ScanState.zero]
  | cons a l ih =>
    simp only [List.foldl_cons]
    obtain ⟨r1, s1, f1⟩ := ih (scanStep now recent_days kt engine st a)
    obtain ⟨r0, s0, f0⟩ := ih (scanStep now recent_days kt engine .zero a)
    obtain ⟨rs, ss, fs⟩ := scanStep_split now recent_days kt engine st a
    refine ⟨?_, ?_, ?_⟩
    · rw [r1, r0, rs, List.append_assoc]
    · rw [s1, s0, ss, Nat.add_assoc]
    · rw [f1, f0, fs, Nat.add_assoc]

/-- The `signal_hits` predicate agrees with the loop's classification: a
symbol has a qualifying hit exactly when its iteration classifies as
`succeededHit`. -/
theorem hasHit_eq_classify (now recent_days : Int) (engine : Engine)
    (sym : String × String) :
    outcomeHasQualifyingHit now recent_days engine sym =
      (match classify now recent_days engine sym.1 with
       | .succeededHit _ => true
       | _ => false) := by
  rcases hE : engine (toFullCode sym.1) with e | data
  · simp [outcomeHasQualifyingHit, classify, hE]
  · rcases hL : data.barTimes.getLast? with _ | t
    · simp [outcomeHasQualifyingHit, classify, hE, hL]
    · by_cases hStale : deltaDays now (truncDay t) > 15
      · simp [outcomeHasQualifyingHit, classify, hE, hL, hStale]
      · rcases hB : data.get_latest_bsp with eb | bsps
        · simp [outcomeHasQualifyingHit, classify, hE, hL, hStale, hB]
        · rcases hf : bsps.filter
              (isRecentBuy (now - timedeltaDays recent_days)) with _ | ⟨x, xs⟩
          · simp [outcomeHasQualifyingHit, classify, select_latest_buy, hE,
              hL, hStale, hB, hf]
          · simp [outcomeHasQualifyingHit, classify, select_latest_buy, hE,
              hL, hStale, hB, hf]

/-- The double-count predicate agrees with the loop's classification: a
symbol's signal-list read raises after the success increment exactly when
its iteration classifies as `succeededThenRaised`. -/
theorem lateRaise_eq_classify (now recent_days : Int) (engine : Engine)
    (sym : String × String) :
    signalReadRaises now recent_days engine sym =
      (match classify now recent_days engine sym.1 with
       | .succeededThenRaised => true
       | _ => false) := by
  rcases hE : engine (toFullCode sym.1) with e | data
  · simp [signalReadRaises, classify, hE]
  · rcases hL : data.barTimes.getLast? with _ | t
    · simp [signalReadRaises, classify, hE, hL]
    · by_cases hStale : deltaDays now (truncDay t) > 15
      · simp [signalReadRaises, classify, hE, hL, hStale]
      · rcases hB : data.get_latest_bsp with eb | bsps
        · simp [signalReadRaises, classify, hE, hL, hStale, hB]
        · rcases hf : bsps.filter
              (isRecentBuy (now - timedeltaDays recent_days)) with _ | ⟨x, xs⟩
          · simp [signalReadRaises, classify, select_latest_buy, hE, hL,
              hStale, hB, hf]
          · simp [signalReadRaises, classify, select_latest_buy, hE, hL,
              hStale, hB, hf]

/-- Counting invariant of the scan loop, from the zero state: the counters
sum to the universe length plus one extra for every symbol whose signal-list
read raises after the success increment (that symbol increments both
counters), and the result rows count the qualifying hits. -/
theorem scan_counts (now recent_days : Int) (kt : KlType) (engine : Engine)
    (l : List (String × String)) :
    (l.foldl (scanStep now recent_days kt engine) .zero).success_count
      + (l.foldl (scanStep now recent_days kt engine) .zero).fail_count
      = l.length
        + (l.filter (signalReadRaises now recent_days engine)).length ∧
    (l.foldl (scanStep now recent_days kt engine) .zero).results.length
      = (l.filter (outcomeHasQualifyingHit now recent_days engine)).length := by
  induction l with
  | nil => simp [ScanState.zero]
  | cons a l ih =>
    simp only [List.foldl_cons]
    obtain ⟨rz, sz, fz⟩ :=
      scanFold_split now recent_days kt engine l
        (scanStep now recent_days kt engine .zero a)
    obtain ⟨ihc, ihr⟩ := ih
    have hh := hasHit_eq_classify now recent_days engine a
    have hlr := lateRaise_eq_classify now recent_days engine a
    cases h : classify now recent_days engine a.1 with
    | failed =>
      rw [h] at hh hlr
      have hh' : outcomeHasQualifyingHit now recent_days engine a = false := by
        simpa using hh
      have hlr' : signalReadRaises now recent_days engine a = false := by
        simpa using hlr
      have hs : (scanStep now recent_days kt engine .zero a).success_count
          = 0 := by simp [scanStep, h, ScanState.zero]
      have hf : (scanStep now recent_days kt engine .zero a).fail_count
          = 1 := by simp [scanStep, h, ScanState.zero]
      have hr : (scanStep now recent_days kt engine .zero a).results
          = [] := by simp [scanStep, h, ScanState.zero]
      constructor
      · rw [sz, fz, hs, hf, List.filter_cons, hlr']
        simp only [List.length_cons, if_false, Bool.false_eq_true]
        omega
      · rw [rz, hr, List.filter_cons, hh']
        simpa using ihr
    | succeededNoHit =>
      rw [h] at hh hlr
      have hh' : outcomeHasQualifyingHit now recent_days engine a = false := by
        simpa using hh
      have hlr' : signalReadRaises now recent_days engine a = false := by
        simpa using hlr
      have hs : (scanStep now recent_days kt engine .zero a).success_count
          = 1 := by simp [scanStep, h, ScanState.zero]
      have hf : (scanStep now recent_days kt engine .zero a).fail_count
          = 0 := by simp [scanStep, h, ScanState.zero]
      have hr : (scanStep now recent_days kt engine .zero a).results
          = [] := by simp [scanStep, h, ScanState.zero]
      constructor
      · rw [sz, fz, hs, hf, List.filter_cons, hlr']
        simp only [List.length_cons, if_false, Bool.false_eq_true]
        omega
      · rw [rz, hr, List.filter_cons, hh']
        simpa using ihr
    | succeededHit b =>
      rw [h] at hh hlr
      have hh' : outcomeHasQualifyingHit now recent_days engine a = true := by
        simpa using hh
      have hlr' : signalReadRaises now recent_days engine a = false := by
        simpa using hlr
      have hs : (scanStep now recent_days kt engine .zero a).success_count
          = 1 := by simp [scanStep, h, ScanState.zero]
      have hf : (scanStep now recent_days kt engine .zero a).fail_count
          = 0 := by simp [scanStep, h, ScanState.zero]
      have hr : (scanStep now recent_days kt engine .zero a).results.length
          = 1 := by simp [scanStep, h, ScanState.zero]
      constructor
      · rw [sz, fz, hs, hf, List.filter_cons, hlr']
        simp only [List.length_cons, if_false, Bool.false_eq_true]
        omega
      · rw [rz, List.filter_cons, hh']
        simp only [List.length_append, List.length_cons, if_true, hr]
        omega
    | succeededThenRaised =>
      rw [h] at hh hlr
      have hh' : outcomeHasQualifyingHit now recent_days engine a = false := by
        simpa using hh
      have hlr' : signalReadRaises now recent_days engine a = true := by
        simpa using hlr
      have hs : (scanStep now recent_days kt engine .zero a).success_count
          = 1 := by simp [scanStep, h, ScanState.zero]
      have hf : (scanStep now recent_days kt engine .zero a).fail_count
          = 1 := by simp [scanStep, h, ScanState.zero]
      have hr : (scanStep now recent_days kt engine .zero a).results
          = [] := by simp [scanStep, h, ScanState.zero]
      constructor
      · rw [sz, fz, hs, hf, List.filter_cons, hlr']
        simp only [List.length_cons, if_true]
        omega
      · rw [rz, hr, List.filter_cons, hh']
        simpa using ihr

/-! ## Claim C1 -/

/-- Engine whose `CChan` construction succeeds with fresh bars but whose
`get_latest_bsp` read raises, for the C1 counterexample. -/
def c1Engine : Engine := fun _ =>
  .ok { barTimes := [144000], get_latest_bsp := .error "bsp read raised" }

/-- C1, counterexample: `attempted == succeeded + skipped_or_failed` fails
on the code.  In the source, `success_count += 1` (pages line 479) runs
BEFORE `chan.get_latest_bsp(number=0)` (line 482); when that read raises,
the `except` at line 498 also runs `fail_count += 1`, so the symbol
increments BOTH counters: scanning a one-symbol universe against such an
engine yields `success_count = 1` and `fail_count = 1`, and
`attempted = 1 ≠ 1 + 1`. -/
theorem scan_double_count_counterexample :
    ([("600000", "A")] : List (String × String)).length = 1 ∧
    (scan_stocks 144720 3 KlType.kDay c1Engine [("600000", "A")]).2.1 = 1 ∧
    (scan_stocks 144720 3 KlType.kDay c1Engine [("600000", "A")]).2.2 = 1 ∧
    ([("600000", "A")] : List (String × String)).length
      ≠ (scan_stocks 144720 3 KlType.kDay c1Engine [("600000", "A")]).2.1
        + (scan_stocks 144720 3 KlType.kDay c1Engine
            [("600000", "A")]).2.2 := by
  decide

/-- C1, amended: for every scan run over any universe (including the empty
one), `succeeded + skipped_or_failed` equals `attempted` plus the number of
symbols whose signal-list read raises after the success increment (each such
symbol increments both counters); hence
`attempted <= succeeded + skipped_or_failed`, with equality exactly on runs
with no such late raise — in particular whenever the engine only raises
during construction.  `signal_hits` (the `found` count, the length of
`results`) equals the number of symbols whose outcome has at least one
qualifying entry `SignalEvent`, unconditionally. -/
theorem scan_summary_invariant (now recent_days : Int) (kt : KlType)
    (engine : Engine) (univ : List (String × String)) :
    (scan_stocks now recent_days kt engine univ).2.1
      + (scan_stocks now recent_days kt engine univ).2.2
      = univ.length
        + (univ.filter (signalReadRaises now recent_days engine)).length ∧
    univ.length
      ≤ (scan_stocks now recent_days kt engine univ).2.1
        + (scan_stocks now recent_days kt engine univ).2.2 ∧
    (scan_stocks now recent_days kt engine univ).1.length
      = (univ.filter
          (outcomeHasQualifyingHit now recent_days engine)).length := by
  obtain ⟨hc, hr⟩ := scan_counts now recent_days kt engine univ
  have hc' : (scan_stocks now recent_days kt engine univ).2.1
      + (scan_stocks now recent_days kt engine univ).2.2
      = univ.length
        + (univ.filter (signalReadRaises now recent_days engine)).length := by
    simpa [scan_stocks] using hc
  refine ⟨hc', ?_, ?_⟩
  · omega
  · simpa [scan_stocks] using hr

/-! ## Claim C2 -/

/-- C2: the per-symbol analysis step never lets an exception escape.  If the
engine raises on one symbol, that symbol is counted in the failed bucket
(`fail_count` one higher), the loop continues with the remaining symbols, and
the run completes with the same results and success count as the run without
that symbol: removing the throwing symbol changes nothing but `fail_count`. -/
theorem scan_failure_isolated (now recent_days : Int) (kt : KlType)
    (engine : Engine) (xs ys : List (String × String))
    (sym : String × String) (e : String)
    (h : engine (toFullCode sym.1) = .error e) :
    (scan_stocks now recent_days kt engine (xs ++ sym :: ys)).1
      = (scan_stocks now recent_days kt engine (xs ++ ys)).1 ∧
    (scan_stocks now recent_days kt engine (xs ++ sym :: ys)).2.1
      = (scan_stocks now recent_days kt engine (xs ++ ys)).2.1 ∧
    (scan_stocks now recent_days kt engine (xs ++ sym :: ys)).2.2
      = (scan_stocks now recent_days kt engine (xs ++ ys)).2.2 + 1 := by
  have hcl : classify now recent_days engine sym.1 = .failed := by
    simp [classify, h]
  simp only [scan_stocks, List.foldl_append, List.foldl_cons]
  obtain ⟨r1, s1, f1⟩ := scanFold_split now recent_days kt engine ys
    (scanStep now recent_days kt engine
      (xs.foldl (scanStep now recent_days kt engine) .zero) sym)
  obtain ⟨r2, s2, f2⟩ := scanFold_split now recent_days kt engine ys
    (xs.foldl (scanStep now recent_days kt engine) .zero)
  obtain ⟨rs, ss, fs⟩ := scanStep_split now recent_days kt engine
    (xs.foldl (scanStep now recent_days kt engine) .zero) sym
  have hr0 : (scanStep now recent_days kt engine .zero sym).results = [] := by
    simp [scanStep, hcl, ScanState.zero]
  have hs0 : (scanStep now recent_days kt engine .zero sym).success_count
      = 0 := by simp [scanStep, hcl, ScanState.zero]
  have hf0 : (scanStep now recent_days kt engine .zero sym).fail_count
      = 1 := by simp [scanStep, hcl, ScanState.zero]
  refine ⟨?_, ?_, ?_⟩
  · rw [r1, rs, hr0, r2]
    simp
  · rw [s1, ss, hs0, s2]
    omega
  · rw [f1, fs, hf0, f2]
    omega

/-- Concrete engine for the C2 witness: raises on `sz.000002`, succeeds with
a fresh, signal-free result elsewhere. -/
def c2Engine : Engine := fun full_code =>
  if full_code = "sz.000002" then .error "engine raised"
  else .ok { barTimes := [144000], get_latest_bsp := .ok [] }

/-- Witness for C2 at a concrete three-symbol universe whose middle symbol
makes the engine raise. -/
theorem scan_failure_isolated_witness :
    (scan_stocks 144720 3 KlType.kDay c2Engine
        ([("600000", "A")] ++ ("000002", "B") :: [("000003", "C")])).1
      = (scan_stocks 144720 3 KlType.kDay c2Engine
          ([("600000", "A")] ++ [("000003", "C")])).1 ∧
    (scan_stocks 144720 3 KlType.kDay c2Engine
        ([("600000", "A")] ++ ("000002", "B") :: [("000003", "C")])).2.1
      = (scan_stocks 144720 3 KlType.kDay c2Engine
          ([("600000", "A")] ++ [("000003", "C")])).2.1 ∧
    (scan_stocks 144720 3 KlType.kDay c2Engine
        ([("600000", "A")] ++ ("000002", "B") :: [("000003", "C")])).2.2
      = (scan_stocks 144720 3 KlType.kDay c2Engine
          ([("600000", "A")] ++ [("000003", "C")])).2.2 + 1 :=
  scan_failure_isolated 144720 3 KlType.kDay c2Engine [("600000", "A")]
    [("000003", "C")] ("000002", "B") "engine raised" (by rfl)

/-! ## Claim C4 -/

/-- Noon of day 100: `datetime.now()` for the C4 scenario. -/
def c4Now : Int := 100 * 1440 + 720

/-- A buy point dated noon of day 101 — strictly in the future of `c4Now`. -/
def c4Future : Bsp := { is_buy := true, bsp_type := "1", time := 101 * 1440 + 720 }

/-- A buy point whose timestamp is exactly `c4Now - timedelta(days=3)`. -/
def c4Boundary : Bsp := { is_buy := true, bsp_type := "1", time := 97 * 1440 + 720 }

/-- C4, counterexample: the claim "counted iff `now - recency_window <= t <=
now`, with the boundary `t = now - recency_window` included" is false on the
code.  The scan's filter `datetime(t.year, t.month, t.day) >= now -
timedelta(days=recent_days)` (App/pages/stock_scanner.py line 485) imposes no
upper bound — a buy point one day in the future of `now` is counted — and an
event exactly at `now - recency_window` is NOT counted when `now` is not a
midnight, because the event side is truncated to midnight while the cutoff
keeps `now`'s time of day. -/
theorem recency_interval_counterexample :
    (isRecentBuy (c4Now - timedeltaDays 3) c4Future = true ∧
      ¬(c4Future.time ≤ c4Now)) ∧
    (isRecentBuy (c4Now - timedeltaDays 3) c4Boundary = false ∧
      c4Boundary.time = c4Now - timedeltaDays 3) := by decide

/-- C4, amended: a `SignalEvent` is counted toward `signal_hits` iff it is an
entry (buy) event and its timestamp truncated to the start of its calendar
day satisfies `now - recency_window <= trunc(t)`; the comparison on the
truncated timestamp is closed (`>=`), and there is no upper bound at `now`. -/
theorem recency_filter_characterization (now recent_days : Int)
    (l : List Bsp) (b : Bsp) :
    b ∈ l.filter (isRecentBuy (now - timedeltaDays recent_days)) ↔
      b ∈ l ∧ b.is_buy = true ∧
        now - recent_days * minutesPerDay ≤ truncDay b.time := by
  simp [List.mem_filter, isRecentBuy, timedeltaDays, and_assoc]

/-! ## Claim C5 -/

/-- C5: for a symbol whose engine call returns, an empty result series
(`len(chan[0]) == 0`) is treated identically to a stale result whose most
recent bar is more than 15 calendar days old: the loop iteration produces
exactly a `fail_count` increment — no success increment, no result row, hence
no signal hit — in both cases. -/
theorem empty_series_equals_stale (now recent_days : Int) (kt : KlType)
    (e1 e2 : Engine) (st : ScanState) (sym : String × String)
    (d1 d2 : AnalysisData) (t : Int)
    (h1 : e1 (toFullCode sym.1) = .ok d1) (hempty : d1.barTimes = [])
    (h2 : e2 (toFullCode sym.1) = .ok d2)
    (hlast : d2.barTimes.getLast? = some t)
    (hstale : deltaDays now (truncDay t) > 15) :
    scanStep now recent_days kt e1 st sym
      = { st with fail_count := st.fail_count + 1 } ∧
    scanStep now recent_days kt e2 st sym
      = scanStep now recent_days kt e1 st sym := by
  have hc1 : classify now recent_days e1 sym.1 = .failed := by
    simp [classify, h1, hempty]
  have hc2 : classify now recent_days e2 sym.1 = .failed := by
    simp [classify, h2, hlast, hstale]
  constructor
  · simp [scanStep, hc1]
  · simp [scanStep, hc1, hc2]

/-- Engine returning zero bars for the C5 witness. -/
def c5EngineEmpty : Engine := fun _ =>
  .ok { barTimes := [], get_latest_bsp := .ok [] }

/-- Engine returning a result whose most recent bar is 20 days old, with a
buy point on it, for the C5 witness. -/
def c5EngineStale : Engine := fun _ =>
  .ok { barTimes := [80 * 1440],
        get_latest_bsp := .ok [⟨true, "1", 80 * 1440, none⟩] }

/-- Witness for C5: at `now =` noon of day 100, a zero-bar result and a
20-day-old result produce the identical fail-bucket state change. -/
theorem empty_series_equals_stale_witness :
    scanStep c4Now 3 KlType.kDay c5EngineEmpty ScanState.zero ("600000", "A")
      = { ScanState.zero with
          fail_count := ScanState.zero.fail_count + 1 } ∧
    scanStep c4Now 3 KlType.kDay c5EngineStale ScanState.zero ("600000", "A")
      = scanStep c4Now 3 KlType.kDay c5EngineEmpty ScanState.zero
          ("600000", "A") :=
  empty_series_equals_stale c4Now 3 KlType.kDay c5EngineEmpty c5EngineStale
    ScanState.zero ("600000", "A")
    { barTimes := [], get_latest_bsp := .ok [] }
    { barTimes := [80 * 1440],
      get_latest_bsp := .ok [⟨true, "1", 80 * 1440, none⟩] }
    (80 * 1440) (by rfl) (by rfl) (by rfl) (by rfl) (by decide)

/-! ## Claim C9 -/

/-- Modelled from the spec: the ordering of the engine's ranked signal list.
`get_latest_bsp` belongs to the external `chan.py` analysis core, which is not
part of the scanned sources; the spec describes the handle as exposing "a
ranked signal list retrievable via `get_latest_signals(count)`" whose first
elements are the latest signals, so the list is taken to be ordered
most-recent-first (each element's timestamp is `>=` every later element's). -/
def RankedLatestFirst (l : List Bsp) : Prop :=
  l.Pairwise (fun a b => b.time ≤ a.time)

/-- If the head of the filtered list is `b`, then `b` qualifies and everything
before it in the original list does not. -/
theorem head_filter_decomp (q : Bsp → Bool) (l : List Bsp) (b : Bsp)
    (h : (l.filter q).head? = some b) :
    ∃ pre post, l = pre ++ b :: post ∧ (∀ c ∈ pre, q c = false) ∧
      q b = true := by
  induction l with
  | nil => simp at h
  | cons a l ih =>
    by_cases hq : q a
    · rw [List.filter_cons_of_pos hq] at h
      simp only [List.head?_cons, Option.some.injEq] at h
      subst h
      exact ⟨[], l, rfl, by simp, hq⟩
    · rw [List.filter_cons_of_neg hq] at h
      obtain ⟨pre, post, hl, hpre, hb⟩ := ih h
      refine ⟨a :: pre, post, by rw [hl]; rfl, ?_, hb⟩
      intro c hc
      rcases List.mem_cons.mp hc with rfl | hc
      · simpa using hq
      · exact hpre c hc

/-- C9, amended: for a symbol with at least one entry-direction `SignalEvent`
surviving the recency filter, the reported representative hit is the FIRST
surviving event in the engine's ranked output (`buy_points[0]`, line 490).
Under the spec's ranking (most recent first), this is a most-recent surviving
event; but when several surviving events are equally recent, the one with the
SMALLER original rank-order index (earlier in engine output) is chosen, not
the larger one. -/
theorem representative_hit_selection (cutoff : Int) (l : List Bsp) (b : Bsp)
    (hrank : RankedLatestFirst l)
    (hsel : select_latest_buy cutoff l = some b) :
    (∀ c ∈ l, isRecentBuy cutoff c = true → c.time ≤ b.time) ∧
    ∃ pre post, l = pre ++ b :: post ∧
      ∀ c ∈ pre, isRecentBuy cutoff c = false := by
  obtain ⟨pre, post, hl, hpre, hb⟩ :=
    head_filter_decomp (isRecentBuy cutoff) l b hsel
  subst hl
  refine ⟨?_, pre, post, rfl, hpre⟩
  intro c hc hqc
  rcases List.mem_append.mp hc with hc | hc
  · exact absurd hqc (by simp [hpre c hc])
  · rcases List.mem_cons.mp hc with rfl | hc
    · exact le_refl _
    · have := (List.pairwise_append.mp hrank).2.1
      exact (List.pairwise_cons.mp this).1 c hc

/-- Two distinct, equally-recent qualifying buy points for the C9 scenario:
the engine reports `c9First` at rank-order index 0 and `c9Second` at index 1,
both dated noon of day 100. -/
def c9First : Bsp := { is_buy := true, bsp_type := "1", time := 100 * 1440 + 720 }

/-- The equally-recent event later in the engine output (index 1). -/
def c9Second : Bsp := { is_buy := true, bsp_type := "2", time := 100 * 1440 + 720 }

/-- C9, counterexample: with two equally-recent surviving events, the code
reports the one at the SMALLER original rank-order index (`buy_points[0]`),
not the larger one as the claim's tie-break states: on the engine output
`[c9First, c9Second]` (both qualifying, equal timestamps) the representative
is `c9First` (index 0), and `c9First ≠ c9Second`. -/
theorem representative_hit_tiebreak_counterexample :
    select_latest_buy 0 [c9First, c9Second] = some c9First ∧
    c9First ≠ c9Second ∧
    isRecentBuy 0 c9Second = true ∧
    c9Second.time = c9First.time := by decide

/-- Witness for the amended C9 at a concrete ranked engine output. -/
theorem representative_hit_selection_witness :
    (∀ c ∈ [c9First, c9Second,
        ({ is_buy := true, bsp_type := "3", time := -1440 } : Bsp)],
      isRecentBuy 0 c = true → c.time ≤ c9First.time) ∧
    ∃ pre post, [c9First, c9Second,
        ({ is_buy := true, bsp_type := "3", time := -1440 } : Bsp)]
      = pre ++ c9First :: post ∧
      ∀ c ∈ pre, isRecentBuy 0 c = false :=
  representative_hit_selection 0
    [c9First, c9Second, { is_buy := true, bsp_type := "3", time := -1440 }]
    c9First (by unfold RankedLatestFirst; decide) (by decide)

/-! ## Cache Manager (`load_/save_analysis_cache`, `load_/save_stock_list_cache`) -/

/-- One persisted buy/sell point descriptor: `{'type': bsp.type2str(),
'time': str(bsp.klu.time)}`. -/
structure PointEntry where
  ptype : String
  time : String
deriving Repr, DecidableEq

/-- Build the persisted descriptor of one buy/sell point. -/
def pointEntry (b : Bsp) : PointEntry :=
  { ptype := b.bsp_type, time := toString b.time }

/-- The JSON payload written by `save_analysis_cache`
(App/pages/stock_scanner.py lines 174-200). -/
structure AnalysisCachePayload where
  code : String
  full_code : String
  cache_date : String
  buy_points : List PointEntry
  sell_points : List PointEntry
  total_buy_points : Nat
  total_sell_points : Nat
deriving Repr, DecidableEq

/-- The payload `save_analysis_cache` builds: buy/sell split, the first 20 of
each persisted (`buy_points[:20]`, `sell_points[:20]`), totals over the full
lists. -/
def mk_analysis_cache (code full_code date_str : String)
    (bsp_list : List Bsp) : AnalysisCachePayload :=
  let buy_points := bsp_list.filter (fun b => b.is_buy)
  let sell_points := bsp_list.filter (fun b => !b.is_buy)
  { code := code, full_code := full_code, cache_date := date_str,
    buy_points := (buy_points.take 20).map pointEntry,
    sell_points := (sell_points.take 20).map pointEntry,
    total_buy_points := buy_points.length,
    total_sell_points := sell_points.length }

/-- The analysis-cache directory tree, `data/analysis/{date}/{code}.json`:
an association from `(date_str, code)` file paths to decoded payloads. -/
abbrev AnalysisFs := List ((String × String) × AnalysisCachePayload)

/-- Read the file at `data/analysis/{k.1}/{k.2}.json`, if present. -/
def fsLookup (fs : AnalysisFs) (k : String × String) :
    Option AnalysisCachePayload :=
  (fs.find? (fun e => decide (e.1 = k))).map (fun e => e.2)

/-- `save_analysis_cache`: write (create or overwrite) the payload at
`data/analysis/{date_str}/{code}.json`. -/
def save_analysis_cache (fs : AnalysisFs) (code full_code date_str : String)
    (bsp_list : List Bsp) : AnalysisFs :=
  ((date_str, code), mk_analysis_cache code full_code date_str bsp_list)
    :: fs.filter (fun e => decide (e.1 ≠ (date_str, code)))

/-- `load_analysis_cache` (lines 124-155): read
`data/analysis/{date_str}/{code}.json`; absent file → `None`; a present file
whose `cache_date` field differs from `date_str` → `None` ("Cache
expired"). -/
def load_analysis_cache (fs : AnalysisFs) (code date_str : String) :
    Option AnalysisCachePayload :=
  match fsLookup fs (date_str, code) with
  | none => none
  | some d => if d.cache_date = date_str then some d else none

/-- The stock-list cache directory, `data/stock_list/{date}.csv`: an
association from the date string in the filename to the stored
`(code, name)` rows. -/
abbrev StockListFs := List (String × List (String × String))

/-- Read `data/stock_list/{d}.csv`, if present. -/
def slLookup (fs : StockListFs) (d : String) :
    Option (List (String × String)) :=
  (fs.find? (fun e => decide (e.1 = d))).map (fun e => e.2)

/-- `save_stock_list_cache` (lines 104-121): write the rows to
`data/stock_list/{date_str}.csv`. -/
def save_stock_list_cache (fs : StockListFs) (df : List (String × String))
    (date_str : String) : StockListFs :=
  (date_str, df) :: fs.filter (fun e => decide (e.1 ≠ date_str))

/-- `load_stock_list_cache` (lines 78-101): read
`data/stock_list/{date_str}.csv`; absent → `None`. -/
def load_stock_list_cache (fs : StockListFs) (date_str : String) :
    Option (List (String × String)) :=
  slLookup fs date_str

/-! ## Claim C6 -/

/-- C6: a cache `get` performed today for an entry created on a prior date
returns absent, for both caches: the analysis payload saved under yesterday's
date directory and the stock list saved under yesterday's filename are
invisible to today's load (which looks only under today's key), yet both
entries still physically exist in the store — saving and loading never delete
them. -/
theorem stale_cache_not_reused (afs : AnalysisFs) (sfs : StockListFs)
    (code full_code y today : String) (l : List Bsp)
    (df : List (String × String))
    (hne : y ≠ today)
    (ha : fsLookup afs (today, code) = none)
    (hs : slLookup sfs today = none) :
    load_analysis_cache (save_analysis_cache afs code full_code y l) code
      today = none ∧
    fsLookup (save_analysis_cache afs code full_code y l) (y, code)
      = some (mk_analysis_cache code full_code y l) ∧
    load_stock_list_cache (save_stock_list_cache sfs df y) today = none ∧
    slLookup (save_stock_list_cache sfs df y) y = some df := by
  have hkey : ¬((y, code) = (today, code)) := by
    intro hk
    exact hne (congrArg Prod.fst hk)
  have hfindA : afs.find? (fun e => decide (e.1 = (today, code))) = none := by
    rcases hfa : afs.find? (fun e => decide (e.1 = (today, code))) with _ | x
    · exact hfa
    · rw [fsLookup, hfa] at ha
      simp at ha
  have hfindS : sfs.find? (fun e => decide (e.1 = today)) = none := by
    rcases hfs' : sfs.find? (fun e => decide (e.1 = today)) with _ | x
    · exact hfs'
    · rw [slLookup, hfs'] at hs
      simp at hs
  refine ⟨?_, ?_, ?_, ?_⟩
  · unfold load_analysis_cache save_analysis_cache fsLookup
    rw [List.find?_cons_of_neg _ (by simpa using hkey)]
    have hfilt : ((afs.filter (fun e => decide (e.1 ≠ (y, code)))).find?
        (fun e => decide (e.1 = (today, code)))) = none := by
      rw [List.find?_eq_none] at hfindA ⊢
      intro x hx
      exact hfindA x (List.mem_of_mem_filter hx)
    rw [hfilt]
    rfl
  · unfold save_analysis_cache fsLookup
    rw [List.find?_cons_of_pos _ (by simp)]
    rfl
  · unfold load_stock_list_cache save_stock_list_cache slLookup
    rw [List.find?_cons_of_neg _ (by simpa using hne)]
    have hfilt : ((sfs.filter (fun e => decide (e.1 ≠ y))).find?
        (fun e => decide (e.1 = today))) = none := by
      rw [List.find?_eq_none] at hfindS ⊢
      intro x hx
      exact hfindS x (List.mem_of_mem_filter hx)
    rw [hfilt]
    rfl
  · unfold save_stock_list_cache slLookup
    rw [List.find?_cons_of_pos _ (by simp)]
    rfl

/-- Witness for C6: an entry saved on 2025-01-01 into empty stores is absent
from a load on 2025-01-02, yet still present under its own key. -/
theorem stale_cache_not_reused_witness :
    load_analysis_cache
      (save_analysis_cache [] "600000" "sh.600000" "2025-01-01" [])
      "600000" "2025-01-02" = none ∧
    fsLookup (save_analysis_cache [] "600000" "sh.600000" "2025-01-01" [])
      ("2025-01-01", "600000")
      = some (mk_analysis_cache "600000" "sh.600000" "2025-01-01" []) ∧
    load_stock_list_cache
      (save_stock_list_cache [] [("600000", "A")] "2025-01-01")
      "2025-01-02" = none ∧
    slLookup (save_stock_list_cache [] [("600000", "A")] "2025-01-01")
      "2025-01-01" = some [("600000", "A")] :=
  stale_cache_not_reused [] [] "600000" "sh.600000" "2025-01-01" "2025-01-02"
    [] [("600000", "A")] (by decide) (by rfl) (by rfl)

/-! ## Single-symbol archive (`save_single_stock_analysis`, lines 672-746) -/

/-- One persisted point descriptor of the single-symbol archive: type, time,
and `float(bsp.klu.close)` when the K-line unit has a `close` attribute,
`None` otherwise. -/
structure PricedPointEntry where
  ptype : String
  time : String
  price : Option Int
deriving Repr, DecidableEq

/-- Build the priced descriptor of one buy/sell point. -/
def pricedPointEntry (b : Bsp) : PricedPointEntry :=
  { ptype := b.bsp_type, time := toString b.time, price := b.close }

/-- The `analysis_info.json` record written by `save_single_stock_analysis`
(lines 708-735). -/
structure SingleStockInfo where
  code : String
  full_code : String
  analysis_date : String
  kl_type : String
  buy_points : List PricedPointEntry
  sell_points : List PricedPointEntry
  total_buy_points : Nat
  total_sell_points : Nat
deriving Repr, DecidableEq

/-- The record `save_single_stock_analysis` builds: the pure numeric code
(prefix stripped), the full code of the `CChan` handle, the level label, the
first 10 buy and 10 sell points (`buy_points[:10]`, `sell_points[:10]`), and
totals over the full lists. -/
def mk_single_stock_info (chan_code code date_str kl_name : String)
    (bsp_list : List Bsp) : SingleStockInfo :=
  let pure_code := stripExchTag code
  let buy_points := bsp_list.filter (fun b => b.is_buy)
  let sell_points := bsp_list.filter (fun b => !b.is_buy)
  { code := pure_code, full_code := chan_code, analysis_date := date_str,
    kl_type := kl_name,
    buy_points := (buy_points.take 10).map pricedPointEntry,
    sell_points := (sell_points.take 10).map pricedPointEntry,
    total_buy_points := buy_points.length,
    total_sell_points := sell_points.length }

/-! ## Claim C10 -/

/-- C10: the persisted point lists are truncated while the totals are not.
The analysis cache stores a prefix of the buy/sell descriptors of length
`min 20 total`, the single-symbol archive a prefix of length `min 10 total`,
while `total_buy_points` / `total_sell_points` always equal the full
untruncated counts; hence for any input with more points than the cap, the
stored list is strictly shorter than the stored total. -/
theorem truncated_points_full_totals (chan_code code full_code date_str
    kl_name : String) (bsp_list : List Bsp) :
    ((mk_analysis_cache code full_code date_str bsp_list).buy_points
        <+: (bsp_list.filter (fun b => b.is_buy)).map pointEntry ∧
      (mk_analysis_cache code full_code date_str bsp_list).buy_points.length
        = min 20 (bsp_list.filter (fun b => b.is_buy)).length ∧
      (mk_analysis_cache code full_code date_str bsp_list).total_buy_points
        = (bsp_list.filter (fun b => b.is_buy)).length ∧
      (20 < (bsp_list.filter (fun b => b.is_buy)).length →
        (mk_analysis_cache code full_code date_str bsp_list).buy_points.length
          < (mk_analysis_cache code full_code date_str
              bsp_list).total_buy_points)) ∧
    ((mk_analysis_cache code full_code date_str bsp_list).sell_points
        <+: (bsp_list.filter (fun b => !b.is_buy)).map pointEntry ∧
      (mk_analysis_cache code full_code date_str bsp_list).sell_points.length
        = min 20 (bsp_list.filter (fun b => !b.is_buy)).length ∧
      (mk_analysis_cache code full_code date_str bsp_list).total_sell_points
        = (bsp_list.filter (fun b => !b.is_buy)).length ∧
      (20 < (bsp_list.filter (fun b => !b.is_buy)).length →
        (mk_analysis_cache code full_code date_str
            bsp_list).sell_points.length
          < (mk_analysis_cache code full_code date_str
              bsp_list).total_sell_points)) ∧
    ((mk_single_stock_info chan_code code date_str kl_name bsp_list).buy_points
        <+: (bsp_list.filter (fun b => b.is_buy)).map pricedPointEntry ∧
      (mk_single_stock_info chan_code code date_str kl_name
          bsp_list).buy_points.length
        = min 10 (bsp_list.filter (fun b => b.is_buy)).length ∧
      (mk_single_stock_info chan_code code date_str kl_name
          bsp_list).total_buy_points
        = (bsp_list.filter (fun b => b.is_buy)).length ∧
      (10 < (bsp_list.filter (fun b => b.is_buy)).length →
        (mk_single_stock_info chan_code code date_str kl_name
            bsp_list).buy_points.length
          < (mk_single_stock_info chan_code code date_str kl_name
              bsp_list).total_buy_points)) ∧
    ((mk_single_stock_info chan_code code date_str kl_name
        bsp_list).sell_points
        <+: (bsp_list.filter (fun b => !b.is_buy)).map pricedPointEntry ∧
      (mk_single_stock_info chan_code code date_str kl_name
          bsp_list).sell_points.length
        = min 10 (bsp_list.filter (fun b => !b.is_buy)).length ∧
      (mk_single_stock_info chan_code code date_str kl_name
          bsp_list).total_sell_points
        = (bsp_list.filter (fun b => !b.is_buy)).length ∧
      (10 < (bsp_list.filter (fun b => !b.is_buy)).length →
        (mk_single_stock_info chan_code code date_str kl_name
            bsp_list).sell_points.length
          < (mk_single_stock_info chan_code code date_str kl_name
              bsp_list).total_sell_points)) := by
  unfold mk_analysis_cache mk_single_stock_info
  refine ⟨⟨?_, ?_, rfl, ?_⟩, ⟨?_, ?_, rfl, ?_⟩,
    ⟨?_, ?_, rfl, ?_⟩, ⟨?_, ?_, rfl, ?_⟩⟩ <;>
    first
      | exact (List.take_prefix _ _).map _
      | (intro h; simp only [List.length_map, List.length_take]; omega)
      | simp [List.length_take]

/-- 21 buy points followed by 21 sell points, exceeding both caps. -/
def c10List : List Bsp :=
  List.replicate 21 ⟨true, "1", 0, none⟩
    ++ List.replicate 21 ⟨false, "1", 0, none⟩

/-- Witness for C10: on 21 buys and 21 sells, all four stored lists are
strictly shorter than their stored totals. -/
theorem truncated_points_full_totals_witness :
    (mk_analysis_cache "600000" "sh.600000" "2025-01-02"
        c10List).buy_points.length
      < (mk_analysis_cache "600000" "sh.600000" "2025-01-02"
          c10List).total_buy_points ∧
    (mk_analysis_cache "600000" "sh.600000" "2025-01-02"
        c10List).sell_points.length
      < (mk_analysis_cache "600000" "sh.600000" "2025-01-02"
          c10List).total_sell_points ∧
    (mk_single_stock_info "sh.600000" "600000" "2025-01-02" "日线"
        c10List).buy_points.length
      < (mk_single_stock_info "sh.600000" "600000" "2025-01-02" "日线"
          c10List).total_buy_points ∧
    (mk_single_stock_info "sh.600000" "600000" "2025-01-02" "日线"
        c10List).sell_points.length
      < (mk_single_stock_info "sh.600000" "600000" "2025-01-02" "日线"
          c10List).total_sell_points :=
  ⟨(truncated_points_full_totals "sh.600000" "600000" "sh.600000" "2025-01-02"
      "日线" c10List).1.2.2.2 (by decide),
   (truncated_points_full_totals "sh.600000" "600000" "sh.600000" "2025-01-02"
      "日线" c10List).2.1.2.2.2 (by decide),
   (truncated_points_full_totals "sh.600000" "600000" "sh.600000" "2025-01-02"
      "日线" c10List).2.2.1.2.2.2 (by decide),
   (truncated_points_full_totals "sh.600000" "600000" "sh.600000" "2025-01-02"
      "日线" c10List).2.2.2.2.2.2 (by decide)⟩

/-! ## Result Archiver (`save_scan_results`, App/pages/stock_scanner.py
lines 557-669) -/

/-- A JSON scalar of the persisted statistics record. -/
inductive JVal
  | jstr (s : String)
  | jnum (n : Nat)
deriving Repr, DecidableEq

/-- The `stats` dictionary handed to `save_scan_results` (built at lines
857-861 from the scan's return). -/
structure ScanStatsIn where
  success : Nat
  fail : Nat
  found : Nat
deriving Repr, DecidableEq

/-- The chart-rendering oracle:
`CPyEchartsPlotDriver(chan).plot_kline_with_bi_seg_zs(...)` for one result
either succeeds or raises with a message. -/
abbrev Render := ScanResult → Except String Unit

/-- The column names of the `scan_results.csv` table, in the order the row
dictionaries list them (lines 590-596). -/
def scan_results_header : List String :=
  ["Code", "Name", "Level", "Buy Point Type", "Buy Point Time"]

/-- The `Level` cell of a CSV row (lines 582-588): the level name of the
handle's first granularity when a handle with a non-empty `lv_list` is
present, the literal `"DAY"` otherwise. -/
def resultLevelName (r : ScanResult) : String :=
  match r.chan with
  | some ch =>
    match ch.lv_list.head? with
    | some kt => levelNameOf kt
    | none => "DAY"
  | none => "DAY"

/-- One CSV row, aligned with `scan_results_header`. -/
def mkCsvRow (r : ScanResult) : List String :=
  [r.code, r.name, resultLevelName r, r.bsp_type, r.bsp_time]

/-- The level label used in chart file names (line 633):
`chan.lv_list[0] if chan.lv_list else KL_TYPE.K_DAY`, then
`LEVEL_NAMES.get(..., "DAY")`. -/
def chartLevelName (ch : ChanHandle) : String :=
  levelNameOf (ch.lv_list.headD KlType.kDay)

/-- `f"{code}_{level_name}.html"` (line 635). -/
def chartFileName (r : ScanResult) (ch : ChanHandle) : String :=
  r.code ++ "_" ++ chartLevelName ch ++ ".html"

/-- One iteration of the chart-saving loop (lines 621-644), accumulating
`(chart_count, saved chart files, chart_errors)`: a missing handle records a
`"{code}: No CChan object"` error; a raising render records
`"{code}: {error}"`; a successful render appends the chart file. -/
def chartStep (render : Render) (acc : Nat × List String × List String)
    (r : ScanResult) : Nat × List String × List String :=
  match r.chan with
  | none => (acc.1, acc.2.1, acc.2.2 ++ [r.code ++ ": No CChan object"])
  | some ch =>
    match render r with
    | .ok _ => (acc.1 + 1, acc.2.1 ++ [chartFileName r ch], acc.2.2)
    | .error e => (acc.1, acc.2.1, acc.2.2 ++ [r.code ++ ": " ++ e])

/-- The whole chart-saving loop. -/
def chartsLoop (render : Render) (results : List ScanResult) :
    Nat × List String × List String :=
  results.foldl (chartStep render) (0, [], [])

/-- The persisted scan archive for one date: the date directory, the
`scan_results.csv` table, the `scan_stats.json` record, the chart artifacts
under `charts/`, and the `chart_errors.log` manifest (present only when there
were errors, lines 647-656). -/
structure ScanArchive where
  dir : String
  csv_header : List String
  csv_rows : List (List String)
  stats_json : List (String × JVal)
  chart_files : List String
  chart_errors_log : Option (List String)
deriving Repr, DecidableEq

/-- The `scan_stats.json` content (lines 604-612). -/
def scan_stats_json (date_str : String) (results : List ScanResult)
    (stats : ScanStatsIn) : List (String × JVal) :=
  [("scan_date", .jstr date_str),
   ("total_found", .jnum results.length),
   ("success_count", .jnum stats.success),
   ("fail_count", .jnum stats.fail),
   ("found_count", .jnum stats.found)]

/-- The lines of `chart_errors.log` (lines 648-656): a summary header
followed by one `"{code}: {error}"` line per failure. -/
def chart_errors_lines (date_str : String) (total chart_count : Nat)
    (errs : List String) : List String :=
  ["Chart Generation Summary - " ++ date_str,
   "Total stocks: " ++ toString total,
   "Charts saved: " ++ toString chart_count,
   "Errors: " ++ toString errs.length,
   "",
   "Error Details:"] ++ errs

/-- `save_scan_results(results, stats)`: write the CSV (one row per result),
the statistics JSON, the per-result charts with per-chart failure isolation,
and the error manifest when any chart failed; return the date directory.  The
outer `try/except` returns `None` only on filesystem write failures, which
the store model cannot produce, so the model always returns the archive. -/
def save_scan_results (render : Render) (date_str : String)
    (results : List ScanResult) (stats : ScanStatsIn) : Option ScanArchive :=
  let rows := results.map mkCsvRow
  let loop := chartsLoop render results
  let errlog := if loop.2.2.isEmpty then none
    else some (chart_errors_lines date_str results.length loop.1 loop.2.2)
  some { dir := date_str, csv_header := scan_results_header,
         csv_rows := rows,
         stats_json := scan_stats_json date_str results stats,
         chart_files := loop.2.1, chart_errors_log := errlog }

/-- The chart file a result contributes, if its handle is present and its
render succeeds. -/
def chartFileOf (render : Render) (r : ScanResult) : Option String :=
  match r.chan with
  | none => none
  | some ch =>
    match render r with
    | .ok _ => some (chartFileName r ch)
    | .error _ => none

/-- The error line a result contributes, if any. -/
def chartErrOf (render : Render) (r : ScanResult) : Option String :=
  match r.chan with
  | none => some (r.code ++ ": No CChan object")
  | some _ =>
    match render r with
    | .ok _ => none
    | .error e => some (r.code ++ ": " ++ e)

/-- One chart step only appends, by deltas independent of the accumulator. -/
theorem chartStep_split (render : Render)
    (acc : Nat × List String × List String) (r : ScanResult) :
    (chartStep render acc r).1
      = acc.1 + (chartStep render (0, [], []) r).1 ∧
    (chartStep render acc r).2.1
      = acc.2.1 ++ (chartStep render (0, [], []) r).2.1 ∧
    (chartStep render acc r).2.2
      = acc.2.2 ++ (chartStep render (0, [], []) r).2.2 := by
  rcases hc : r.chan with _ | ch
  · simp [chartStep, hc]
  · rcases hrr : render r with e | u
    · simp [chartStep, hc, hrr]
    · simp [chartStep, hc, hrr]

/-- Running the chart loop from an arbitrary accumulator appends what the
loop produces from the empty accumulator. -/
theorem chartsFold_split (render : Render) (l : List ScanResult)
    (acc : Nat × List String × List String) :
    (l.foldl (chartStep render) acc).1
      = acc.1 + (chartsLoop render l).1 ∧
    (l.foldl (chartStep render) acc).2.1
      = acc.2.1 ++ (chartsLoop render l).2.1 ∧
    (l.foldl (chartStep render) acc).2.2
      = acc.2.2 ++ (chartsLoop render l).2.2 := by
  induction l generalizing acc with
  | nil => simp [chartsLoop]
  | cons a l ih =>
    simp only [chartsLoop, List.foldl_cons]
    obtain ⟨c1, f1, e1⟩ := ih (chartStep render acc a)
    obtain ⟨c0, f0, e0⟩ := ih (chartStep render (0, [], []) a)
    obtain ⟨cs, fs, es⟩ := chartStep_split render acc a
    simp only [chartsLoop] at c1 f1 e1 c0 f0 e0
    refine ⟨?_, ?_, ?_⟩
    · rw [c1, c0, cs]
      omega
    · rw [f1, f0, fs, List.append_assoc]
    · rw [e1, e0, es, List.append_assoc]

/-- The chart loop's saved files and error lines are exactly the
per-result contributions, in order. -/
theorem chartsLoop_eq (render : Render) (results : List ScanResult) :
    (chartsLoop render results).2.1
      = results.filterMap (chartFileOf render) ∧
    (chartsLoop render results).2.2
      = results.filterMap (chartErrOf render) := by
  induction results with
  | nil => simp [chartsLoop]
  | cons a l ih =>
    obtain ⟨ihf, ihe⟩ := ih
    simp only [chartsLoop, List.foldl_cons]
    obtain ⟨_, f0, e0⟩ :=
      chartsFold_split render l (chartStep render (0, [], []) a)
    simp only [chartsLoop] at f0 e0 ihf ihe
    constructor
    · rw [f0, ihf, List.filterMap_cons]
      rcases hc : a.chan with _ | ch
      · simp [chartStep, chartFileOf, hc]
      · rcases hrr : render a with e | u
        · simp [chartStep, chartFileOf, hc, hrr]
        · simp [chartStep, chartFileOf, hc, hrr]
    · rw [e0, ihe, List.filterMap_cons]
      rcases hc : a.chan with _ | ch
      · simp [chartStep, chartErrOf, hc]
      · rcases hrr : render a with e | u
        · simp [chartStep, chartErrOf, hc, hrr]
        · simp [chartStep, chartErrOf, hc, hrr]

/-! ## Claim C7 -/

/-- C7, counterexample: the persisted `scan_results` table's columns are
`Code, Name, Level, Buy Point Type, Buy Point Time` — not
`Code, Name, Level, Signal Type, Signal Time` as the claim states. -/
theorem scan_results_columns_counterexample :
    scan_results_header
      = ["Code", "Name", "Level", "Buy Point Type", "Buy Point Time"] ∧
    scan_results_header
      ≠ ["Code", "Name", "Level", "Signal Type", "Signal Time"] := by decide

/-- C7, amended: the persisted scan archive for a date has exactly the
layout: a `scan_results` table with columns
`Code, Name, Level, Buy Point Type, Buy Point Time` (one row per hit); a
`scan_stats` record with exactly the fields
`scan_date, total_found, success_count, fail_count, found_count`; chart
artifacts named `{code}_{level}.html` for every hit whose chart renders; and
a `chart_errors.log` manifest listing `{code}: {error}` for each artifact
that failed to render. -/
theorem scan_archive_layout (render : Render) (date_str : String)
    (results : List ScanResult) (stats : ScanStatsIn) :
    ∃ a, save_scan_results render date_str results stats = some a ∧
      a.dir = date_str ∧
      a.csv_header
        = ["Code", "Name", "Level", "Buy Point Type", "Buy Point Time"] ∧
      a.csv_rows = results.map mkCsvRow ∧
      a.stats_json.map (fun p => p.1)
        = ["scan_date", "total_found", "success_count", "fail_count",
           "found_count"] ∧
      (∀ r ∈ results, ∀ ch, r.chan = some ch → render r = .ok () →
        (r.code ++ "_" ++ chartLevelName ch ++ ".html") ∈ a.chart_files) ∧
      (∀ r ∈ results, ∀ ch e, r.chan = some ch → render r = .error e →
        ∃ log, a.chart_errors_log = some log ∧
          (r.code ++ ": " ++ e) ∈ log) := by
  obtain ⟨hfiles, herrs⟩ := chartsLoop_eq render results
  refine ⟨{ dir := date_str, csv_header := scan_results_header,
            csv_rows := results.map mkCsvRow,
            stats_json := scan_stats_json date_str results stats,
            chart_files := (chartsLoop render results).2.1,
            chart_errors_log :=
              if (chartsLoop render results).2.2.isEmpty then none
              else some (chart_errors_lines date_str results.length
                (chartsLoop render results).1
                (chartsLoop render results).2.2) },
    rfl, rfl, rfl, rfl, rfl, ?_, ?_⟩
  · intro r hr ch hc hok
    show _ ∈ (chartsLoop render results).2.1
    rw [hfiles]
    exact List.mem_filterMap.mpr
      ⟨r, hr, by simp [chartFileOf, chartFileName, hc, hok]⟩
  · intro r hr ch e hc herr
    have hmem : (r.code ++ ": " ++ e) ∈ (chartsLoop render results).2.2 := by
      rw [herrs]
      exact List.mem_filterMap.mpr ⟨r, hr, by simp [chartErrOf, hc, herr]⟩
    have hne : (chartsLoop render results).2.2.isEmpty = false := by
      rcases hE : (chartsLoop render results).2.2 with _ | ⟨x, xs⟩
      · rw [hE] at hmem
        simp at hmem
      · simp [hE]
    refine ⟨chart_errors_lines date_str results.length
      (chartsLoop render results).1 (chartsLoop render results).2.2, ?_, ?_⟩
    · show (if (chartsLoop render results).2.2.isEmpty then none
        else some _) = some _
      rw [hne]
      simp
    · unfold chart_errors_lines
      exact List.mem_append_right _ hmem

/-- A hit whose chart renders, for the C7/C8 witnesses. -/
def cOkResult : ScanResult :=
  { code := "600000", name := "A", bsp_type := "1", bsp_time := "100",
    chan := some ⟨"sh.600000", [KlType.kDay]⟩ }

/-- A hit whose chart rendering raises, for the C7/C8 witnesses. -/
def cBadResult : ScanResult :=
  { code := "000001", name := "B", bsp_type := "2", bsp_time := "101",
    chan := some ⟨"sz.000001", [KlType.kDay]⟩ }

/-- A render oracle that raises exactly on `cBadResult`. -/
def cRender : Render := fun r =>
  if r.code = "000001" then .error "render failed" else .ok ()

/-- Witness for the amended C7 at a concrete two-hit result list. -/
theorem scan_archive_layout_witness :
    ∃ a, save_scan_results cRender "2025-01-02" [cOkResult, cBadResult]
        ⟨2, 0, 2⟩ = some a ∧
      a.dir = "2025-01-02" ∧
      a.csv_header
        = ["Code", "Name", "Level", "Buy Point Type", "Buy Point Time"] ∧
      a.csv_rows = [cOkResult, cBadResult].map mkCsvRow ∧
      a.stats_json.map (fun p => p.1)
        = ["scan_date", "total_found", "success_count", "fail_count",
           "found_count"] ∧
      (∀ r ∈ [cOkResult, cBadResult], ∀ ch, r.chan = some ch →
        cRender r = .ok () →
        (r.code ++ "_" ++ chartLevelName ch ++ ".html") ∈ a.chart_files) ∧
      (∀ r ∈ [cOkResult, cBadResult], ∀ ch e, r.chan = some ch →
        cRender r = .error e →
        ∃ log, a.chart_errors_log = some log ∧
          (r.code ++ ": " ++ e) ∈ log) :=
  scan_archive_layout cRender "2025-01-02" [cOkResult, cBadResult] ⟨2, 0, 2⟩

/-! ## Claim C8 -/

/-- C8: a chart-artifact generation failure for an individual symbol does not
abort the archive operation: the archive is still returned with its date
path, the full tabular content (one row per result) and the statistics are
still written, the failure is recorded as `{code}: {error}` in the
`chart_errors.log` manifest, and the chart of every other result whose
render succeeds is still generated. -/
theorem chart_failure_does_not_abort (render : Render) (date_str : String)
    (results : List ScanResult) (stats : ScanStatsIn)
    (r : ScanResult) (ch : ChanHandle) (e : String)
    (hr : r ∈ results) (hc : r.chan = some ch)
    (herr : render r = .error e) :
    ∃ a, save_scan_results render date_str results stats = some a ∧
      a.dir = date_str ∧
      a.csv_rows = results.map mkCsvRow ∧
      a.stats_json = scan_stats_json date_str results stats ∧
      (∃ log, a.chart_errors_log = some log ∧
        (r.code ++ ": " ++ e) ∈ log) ∧
      (∀ r' ∈ results, ∀ ch', r'.chan = some ch' → render r' = .ok () →
        (r'.code ++ "_" ++ chartLevelName ch' ++ ".html")
          ∈ a.chart_files) := by
  obtain ⟨hfiles, herrs⟩ := chartsLoop_eq render results
  have hmem : (r.code ++ ": " ++ e) ∈ (chartsLoop render results).2.2 := by
    rw [herrs]
    exact List.mem_filterMap.mpr ⟨r, hr, by simp [chartErrOf, hc, herr]⟩
  have hne : (chartsLoop render results).2.2.isEmpty = false := by
    rcases hE : (chartsLoop render results).2.2 with _ | ⟨x, xs⟩
    · rw [hE] at hmem
      simp at hmem
    · simp [hE]
  refine ⟨{ dir := date_str, csv_header := scan_results_header,
            csv_rows := results.map mkCsvRow,
            stats_json := scan_stats_json date_str results stats,
            chart_files := (chartsLoop render results).2.1,
            chart_errors_log :=
              if (chartsLoop render results).2.2.isEmpty then none
              else some (chart_errors_lines date_str results.length
                (chartsLoop render results).1
                (chartsLoop render results).2.2) },
    rfl, rfl, rfl, rfl, ?_, ?_⟩
  · refine ⟨chart_errors_lines date_str results.length
      (chartsLoop render results).1 (chartsLoop render results).2.2, ?_, ?_⟩
    · show (if (chartsLoop render results).2.2.isEmpty then none
        else some _) = some _
      rw [hne]
      simp
    · unfold chart_errors_lines
      exact List.mem_append_right _ hmem
  · intro r' hr' ch' hc' hok
    show _ ∈ (chartsLoop render results).2.1
    rw [hfiles]
    exact List.mem_filterMap.mpr
      ⟨r', hr', by simp [chartFileOf, chartFileName, hc', hok]⟩

/-- Witness for C8: with the chart of `cBadResult` failing, the archive is
still produced, containing both rows, the statistics, the error line, and
the chart of `cOkResult`. -/
theorem chart_failure_does_not_abort_witness :
    ∃ a, save_scan_results cRender "2025-01-02" [cOkResult, cBadResult]
        ⟨2, 0, 2⟩ = some a ∧
      a.dir = "2025-01-02" ∧
      a.csv_rows = [cOkResult, cBadResult].map mkCsvRow ∧
      a.stats_json
        = scan_stats_json "2025-01-02" [cOkResult, cBadResult] ⟨2, 0, 2⟩ ∧
      (∃ log, a.chart_errors_log = some log ∧
        (cBadResult.code ++ ": " ++ "render failed") ∈ log) ∧
      (∀ r' ∈ [cOkResult, cBadResult], ∀ ch', r'.chan = some ch' →
        cRender r' = .ok () →
        (r'.code ++ "_" ++ chartLevelName ch' ++ ".html")
          ∈ a.chart_files) :=
  chart_failure_does_not_abort cRender "2025-01-02" [cOkResult, cBadResult]
    ⟨2, 0, 2⟩ cBadResult ⟨"sz.000001", [KlType.kDay]⟩ "render failed"
    (by decide) (by rfl) (by rfl)

end ChanScanner
